import Mathlib

/-
Verification of the Core2XY kinematics axis-position transform
(klippy/chelper/kin_core2xy.c).

The C file computes, for one stepper axis, the axis position at a given
time as a fixed linear combination of the toolhead coordinate reported
by the move queue.  The combination is selected once at construction
(core2xy_stepper_alloc) by storing a function pointer
(calc_position_cb); the solver later calls that pointer with the move
and a time value.

Embedding choices:
- C doubles carry exact real-valued data in this component (the spec
  speaks of reals); they are modelled as rationals so that every
  definition is executable and every equality decidable.
- The move-queue collaborator is out of scope; a move is modelled
  abstractly as the coordinate-at-time function it answers
  (move_get_coord m t = m t).
- The stored function pointer is modelled as a closed tag type
  CalcPositionCb; the value left by memset(dc, 0, ...) (a NULL function
  pointer) is the tag CalcPositionCb.unset.  Invoking an unset pointer
  is undefined behavior, modelled as the result none of position_at.
- The C functions for the dual-carriage variants receive a pointer to
  the embedded stepper_kinematics and recover the enclosing
  dual_carriage with container_of; here they simply receive the
  dual_carriage value.
- malloc is modelled by an explicit oracle argument (Option Unit) where
  the allocation outcome matters (core2xy_stepper_alloc_with_malloc).
-/

set_option linter.unusedVariables false

namespace Core2XY

/-- A toolhead coordinate (struct coord of trapq.h): the spatial
components of the planned toolhead position at one instant. -/
structure coord where
  x : ℚ
  y : ℚ
  z : ℚ
deriving DecidableEq

/-- A planned move, modelled abstractly through the only query this
component makes of it: the coordinate-at-time function answered by the
move-queue collaborator. -/
abbrev Move : Type := ℚ → coord

/-- The move-queue query (move_get_coord of trapq): the toolhead
coordinate of move m at the given time, trusted verbatim. -/
def move_get_coord (m : Move) (move_time : ℚ) : coord :=
  m move_time

/-- The possible values of the stored calc_position_cb function
pointer in this file: one tag per static function whose address
core2xy_stepper_alloc can store, plus `unset` for the NULL pointer left
by memset when no branch of the dispatch matches. -/
inductive CalcPositionCb where
  | unset
  | plus
  | minus
  | dc_park
  | dc_copy
  | dc_mirror
deriving DecidableEq

/-- The part of struct stepper_kinematics (itersolve.h) that this file
reads or writes: the position-mapping callback. -/
structure stepper_kinematics where
  calc_position_cb : CalcPositionCb
deriving DecidableEq

/-- struct dual_carriage of kin_core2xy.c: the embedded
stepper_kinematics together with the construction-time offset. -/
structure dual_carriage where
  sk : stepper_kinematics
  offset : ℚ
deriving DecidableEq

/-- core2xy_stepper_plus_calc_position: c = move_get_coord(m, t);
return c.x + c.y.  The sk argument is unused, as in the C code. -/
def core2xy_stepper_plus_calc_position (sk : stepper_kinematics) (m : Move)
    (move_time : ℚ) : ℚ :=
  let c := move_get_coord m move_time
  c.x + c.y

/-- core2xy_stepper_minus_calc_position: c = move_get_coord(m, t);
return c.x - c.y.  The sk argument is unused, as in the C code. -/
def core2xy_stepper_minus_calc_position (sk : stepper_kinematics) (m : Move)
    (move_time : ℚ) : ℚ :=
  let c := move_get_coord m move_time
  c.x - c.y

/-- core2xy_stepper_dc_park_calc_position: c = move_get_coord(m, t);
return c.y.  The sk argument is unused, as in the C code (the offset of
the enclosing dual_carriage is never read). -/
def core2xy_stepper_dc_park_calc_position (sk : stepper_kinematics) (m : Move)
    (move_time : ℚ) : ℚ :=
  let c := move_get_coord m move_time
  c.y

/-- core2xy_stepper_dc_copy_calc_position: dc = container_of(sk);
c = move_get_coord(m, t); return c.x + c.y + dc->offset.  The
container_of recovery of the enclosing struct is modelled by passing
the dual_carriage itself. -/
def core2xy_stepper_dc_copy_calc_position (dc : dual_carriage) (m : Move)
    (move_time : ℚ) : ℚ :=
  let c := move_get_coord m move_time
  c.x + c.y + dc.offset

/-- core2xy_stepper_dc_mirror_calc_position: dc = container_of(sk);
c = move_get_coord(m, t); return -c.x + c.y + dc->offset. -/
def core2xy_stepper_dc_mirror_calc_position (dc : dual_carriage) (m : Move)
    (move_time : ℚ) : ℚ :=
  let c := move_get_coord m move_time;
  -c.x + c.y + dc.offset

/-- core2xy_stepper_alloc, the successful-malloc path: memset the new
dual_carriage to zero (offset 0, calc_position_cb NULL), store the
offset, then dispatch on the type character.  Note the dispatch has no
branch for any character outside '+', '-', 'P', 'C', 'M' and no error
path: on an unmatched character the function falls through and returns
the instance with the callback still unset. -/
def core2xy_stepper_alloc (type : Char) (offset : ℚ) : dual_carriage :=
  let dc : dual_carriage :=
    { sk := { calc_position_cb := CalcPositionCb.unset }, offset := 0 }
  let dc := { dc with offset := offset }
  if type = '+' then
    { dc with sk := { dc.sk with calc_position_cb := CalcPositionCb.plus } }
  else if type = '-' then
    { dc with sk := { dc.sk with calc_position_cb := CalcPositionCb.minus } }
  else if type = 'P' then
    { dc with sk := { dc.sk with calc_position_cb := CalcPositionCb.dc_park } }
  else if type = 'C' then
    { dc with sk := { dc.sk with calc_position_cb := CalcPositionCb.dc_copy } }
  else if type = 'M' then
    { dc with sk := { dc.sk with calc_position_cb := CalcPositionCb.dc_mirror } }
  else
    dc

/-- The solver-side invocation sk->calc_position_cb(sk, m, move_time):
dispatch on the stored callback tag.  Invoking the NULL pointer left by
memset is undefined behavior, modelled as none. -/
def position_at (dc : dual_carriage) (m : Move) (move_time : ℚ) : Option ℚ :=
  match dc.sk.calc_position_cb with
  | CalcPositionCb.unset => none
  | CalcPositionCb.plus =>
      some (core2xy_stepper_plus_calc_position dc.sk m move_time)
  | CalcPositionCb.minus =>
      some (core2xy_stepper_minus_calc_position dc.sk m move_time)
  | CalcPositionCb.dc_park =>
      some (core2xy_stepper_dc_park_calc_position dc.sk m move_time)
  | CalcPositionCb.dc_copy =>
      some (core2xy_stepper_dc_copy_calc_position dc m move_time)
  | CalcPositionCb.dc_mirror =>
      some (core2xy_stepper_dc_mirror_calc_position dc m move_time)

/-- core2xy_stepper_plus_calc_position in state-passing form: the C
body performs no store through its sk pointer, so the translated
function returns the result together with the (unchanged) state it was
handed.  Used to state the purity claim. -/
def core2xy_stepper_plus_calc_position_st (sk : stepper_kinematics) (m : Move)
    (move_time : ℚ) : ℚ × stepper_kinematics :=
  let c := move_get_coord m move_time
  (c.x + c.y, sk)

/-- core2xy_stepper_minus_calc_position in state-passing form; the body
contains no store, so the state passes through unchanged. -/
def core2xy_stepper_minus_calc_position_st (sk : stepper_kinematics) (m : Move)
    (move_time : ℚ) : ℚ × stepper_kinematics :=
  let c := move_get_coord m move_time
  (c.x - c.y, sk)

/-- core2xy_stepper_dc_park_calc_position in state-passing form; no
store in the body. -/
def core2xy_stepper_dc_park_calc_position_st (sk : stepper_kinematics) (m : Move)
    (move_time : ℚ) : ℚ × stepper_kinematics :=
  let c := move_get_coord m move_time
  (c.y, sk)

/-- core2xy_stepper_dc_copy_calc_position in state-passing form over
the whole dual_carriage (recovered by container_of in C); the body
reads dc->offset and performs no store. -/
def core2xy_stepper_dc_copy_calc_position_st (dc : dual_carriage) (m : Move)
    (move_time : ℚ) : ℚ × dual_carriage :=
  let c := move_get_coord m move_time
  (c.x + c.y + dc.offset, dc)

/-- core2xy_stepper_dc_mirror_calc_position in state-passing form; the
body reads dc->offset and performs no store. -/
def core2xy_stepper_dc_mirror_calc_position_st (dc : dual_carriage) (m : Move)
    (move_time : ℚ) : ℚ × dual_carriage :=
  let c := move_get_coord m move_time;
  (-c.x + c.y + dc.offset, dc)

/-- position_at in state-passing form: the callback invocation returns
the scalar result together with the dual_carriage state after the
call, making any mutation of the instance observable in the type. -/
def position_at_st (dc : dual_carriage) (m : Move) (move_time : ℚ) :
    Option (ℚ × dual_carriage) :=
  match dc.sk.calc_position_cb with
  | CalcPositionCb.unset => none
  | CalcPositionCb.plus =>
      let r := core2xy_stepper_plus_calc_position_st dc.sk m move_time
      some (r.1, { dc with sk := r.2 })
  | CalcPositionCb.minus =>
      let r := core2xy_stepper_minus_calc_position_st dc.sk m move_time
      some (r.1, { dc with sk := r.2 })
  | CalcPositionCb.dc_park =>
      let r := core2xy_stepper_dc_park_calc_position_st dc.sk m move_time
      some (r.1, { dc with sk := r.2 })
  | CalcPositionCb.dc_copy =>
      some (core2xy_stepper_dc_copy_calc_position_st dc m move_time)
  | CalcPositionCb.dc_mirror =>
      some (core2xy_stepper_dc_mirror_calc_position_st dc m move_time)

/-- The outcome of running core2xy_stepper_alloc with the malloc call
made explicit.  allocationFailure is the outcome the specification
prescribes when storage cannot be obtained; the C code has no path
producing it. -/
inductive AllocResult where
  | ok (dc : dual_carriage)
  | allocationFailure
  | undefinedBehavior
deriving DecidableEq

/-- core2xy_stepper_alloc with the malloc outcome as an explicit
oracle (none models malloc returning NULL).  The C code does not test
the malloc result: when malloc returns NULL it proceeds directly to
memset(dc, 0, sizeof(*dc)) on the null pointer, which is undefined
behavior; no error is reported on any path. -/
def core2xy_stepper_alloc_with_malloc (mallocResult : Option Unit)
    (type : Char) (offset : ℚ) : AllocResult :=
  match mallocResult with
  | none => AllocResult.undefinedBehavior
  | some _ => AllocResult.ok (core2xy_stepper_alloc type offset)

/-- Helper: on any type character with no branch in the dispatch, the
construction falls through and returns the zero-initialized callback
with the stored offset. -/
theorem alloc_unrecognized (t : Char) (offset : ℚ)
    (h1 : t ≠ '+') (h2 : t ≠ '-') (h3 : t ≠ 'P') (h4 : t ≠ 'C') (h5 : t ≠ 'M') :
    core2xy_stepper_alloc t offset
      = { sk := { calc_position_cb := CalcPositionCb.unset }, offset := offset } := by
  simp [core2xy_stepper_alloc, h1, h2, h3, h4, h5]

/-- Helper: the value position_at computes on a '+' instance, by
unfolding the dispatch and core2xy_stepper_plus_calc_position. -/
theorem position_at_plus (m : Move) (move_time offset : ℚ) :
    position_at (core2xy_stepper_alloc '+' offset) m move_time
      = some ((move_get_coord m move_time).x + (move_get_coord m move_time).y) :=
  rfl

/-- Helper: the value position_at computes on a '-' instance. -/
theorem position_at_minus (m : Move) (move_time offset : ℚ) :
    position_at (core2xy_stepper_alloc '-' offset) m move_time
      = some ((move_get_coord m move_time).x - (move_get_coord m move_time).y) :=
  rfl

/-- Helper: the value position_at computes on a 'C' instance. -/
theorem position_at_copy (m : Move) (move_time offset : ℚ) :
    position_at (core2xy_stepper_alloc 'C' offset) m move_time
      = some ((move_get_coord m move_time).x + (move_get_coord m move_time).y
          + offset) :=
  rfl

/-- Helper: the value position_at computes on an 'M' instance. -/
theorem position_at_mirror (m : Move) (move_time offset : ℚ) :
    position_at (core2xy_stepper_alloc 'M' offset) m move_time
      = some (-(move_get_coord m move_time).x + (move_get_coord m move_time).y
          + offset) :=
  rfl

/-- Helper: the state-passing form of position_at returns exactly the
scalar of position_at paired with the unchanged instance: no call path
mutates the dual_carriage. -/
theorem position_at_st_spec (dc : dual_carriage) (m : Move) (move_time : ℚ) :
    position_at_st dc m move_time
      = Option.map (fun r => (r, dc)) (position_at dc m move_time) := by
  unfold position_at_st position_at
  cases dc.sk.calc_position_cb <;> rfl

/-- Claim C1: for every move, time and construction offset, position_at
on an instance constructed with selector '+' returns exactly x + y, and
on one constructed with '-' exactly x - y, where (x, y) is the
coordinate the move queue reports for that move and time. -/
theorem C1_plus_minus_exact (m : Move) (move_time offset : ℚ) :
    position_at (core2xy_stepper_alloc '+' offset) m move_time
      = some ((move_get_coord m move_time).x + (move_get_coord m move_time).y)
    ∧ position_at (core2xy_stepper_alloc '-' offset) m move_time
      = some ((move_get_coord m move_time).x - (move_get_coord m move_time).y) :=
  ⟨rfl, rfl⟩

/-- Claim C2: for every move, time and construction offset, position_at
on an instance constructed with 'C' returns exactly x + y + offset, and
on one constructed with 'M' exactly -x + y + offset. -/
theorem C2_copy_mirror_exact (m : Move) (move_time offset : ℚ) :
    position_at (core2xy_stepper_alloc 'C' offset) m move_time
      = some ((move_get_coord m move_time).x + (move_get_coord m move_time).y
          + offset)
    ∧ position_at (core2xy_stepper_alloc 'M' offset) m move_time
      = some (-(move_get_coord m move_time).x + (move_get_coord m move_time).y
          + offset) :=
  ⟨rfl, rfl⟩

/-- Claim C3, counterexample: the dispatch of core2xy_stepper_alloc has
no branch for the character 'y', so construction with 'y' does not
yield a valid mapping: the callback stays at its zero-initialized
(unset) value and invoking position_at has no defined result. -/
theorem C3_counterexample :
    (core2xy_stepper_alloc 'y' 0).sk.calc_position_cb = CalcPositionCb.unset
    ∧ position_at (core2xy_stepper_alloc 'y' 0) (fun _ => ⟨4, 1, 0⟩) 0 = none :=
  ⟨rfl, rfl⟩

/-- Claim C3 as amended: constructing with selector 'y' does not yield
a valid mapping; the dispatch recognizes only '+', '-', 'P', 'C', 'M',
so the 'y' instance's callback is left unset and position_at on it has
no defined result for any move and time. -/
theorem C3_y_not_recognized (offset : ℚ) (m : Move) (move_time : ℚ) :
    (core2xy_stepper_alloc 'y' offset).sk.calc_position_cb = CalcPositionCb.unset
    ∧ position_at (core2xy_stepper_alloc 'y' offset) m move_time = none :=
  ⟨rfl, rfl⟩

/-- Claim C4: for every move, time and construction offset, position_at
on an instance constructed with 'P' returns exactly y, and the result
coincides with that of a 'P' instance built with any other offset: the
offset is unused by the park mapping. -/
theorem C4_park_y_only (m : Move) (move_time offset offset2 : ℚ) :
    position_at (core2xy_stepper_alloc 'P' offset) m move_time
      = some (move_get_coord m move_time).y
    ∧ position_at (core2xy_stepper_alloc 'P' offset) m move_time
      = position_at (core2xy_stepper_alloc 'P' offset2) m move_time :=
  ⟨rfl, rfl⟩

/-- Claim C5, counterexample: on the selector '?', which is outside the
recognized set, construction does not fail: it returns an instance
(with the callback unset), so no UnsupportedVariant error is possible
on any path of core2xy_stepper_alloc. -/
theorem C5_counterexample :
    ('?' ∉ (['+', '-', 'y', 'P', 'C', 'M'] : List Char))
    ∧ core2xy_stepper_alloc '?' 0
        = { sk := { calc_position_cb := CalcPositionCb.unset }, offset := 0 }
    ∧ position_at (core2xy_stepper_alloc '?' 0) (fun _ => ⟨2, 3, 0⟩) 0 = none :=
  ⟨by decide, rfl, rfl⟩

/-- Claim C5 as amended: for every selector outside the dispatched set
'+', '-', 'P', 'C', 'M', construction does not fail: it silently
returns an instance whose mapping callback is left unset. -/
theorem C5_unrecognized_silent (t : Char) (offset : ℚ)
    (h : t ∉ (['+', '-', 'P', 'C', 'M'] : List Char)) :
    core2xy_stepper_alloc t offset
      = { sk := { calc_position_cb := CalcPositionCb.unset }, offset := offset } := by
  simp only [List.mem_cons, not_or] at h
  exact alloc_unrecognized t offset h.1 h.2.1 h.2.2.1 h.2.2.2.1 h.2.2.2.2.1

/-- Witness for C5 as amended, at the concrete selector '*'. -/
theorem C5_unrecognized_silent_witness :
    ('*' ∉ (['+', '-', 'P', 'C', 'M'] : List Char))
    ∧ core2xy_stepper_alloc '*' 5
        = { sk := { calc_position_cb := CalcPositionCb.unset }, offset := 5 } :=
  ⟨by decide, C5_unrecognized_silent '*' 5 (by decide)⟩

/-- Claim C6: for every selector outside the dispatched set '+', '-',
'P', 'C', 'M', the construction silently returns an instance whose
position-mapping callback is left at the zero-initialized unset value
(no branch assigns a mapping, no error is reported), and position_at on
that instance has no defined result. -/
theorem C6_silent_fallback (t : Char) (offset : ℚ) (m : Move) (move_time : ℚ)
    (h : t ∉ (['+', '-', 'P', 'C', 'M'] : List Char)) :
    core2xy_stepper_alloc t offset
      = { sk := { calc_position_cb := CalcPositionCb.unset }, offset := offset }
    ∧ position_at (core2xy_stepper_alloc t offset) m move_time = none := by
  simp only [List.mem_cons, not_or] at h
  have he := alloc_unrecognized t offset h.1 h.2.1 h.2.2.1 h.2.2.2.1 h.2.2.2.2.1
  exact ⟨he, by rw [he]; rfl⟩

/-- Witness for C6, at the concrete selector '!'. -/
theorem C6_silent_fallback_witness :
    ('!' ∉ (['+', '-', 'P', 'C', 'M'] : List Char))
    ∧ (core2xy_stepper_alloc '!' 0
        = { sk := { calc_position_cb := CalcPositionCb.unset }, offset := 0 }
      ∧ position_at (core2xy_stepper_alloc '!' 0) (fun _ => ⟨2, 3, 0⟩) 0 = none) :=
  ⟨by decide, C6_silent_fallback '!' 0 (fun _ => ⟨2, 3, 0⟩) 0 (by decide)⟩

/-- Claim C7: two instances of the same offset-using variant ('C' or
'M') built with offsets o1 and o2, queried with the same move and time,
give results differing by exactly o1 - o2. -/
theorem C7_offset_invariance (m : Move) (move_time o1 o2 r1 r2 s1 s2 : ℚ)
    (hc1 : position_at (core2xy_stepper_alloc 'C' o1) m move_time = some r1)
    (hc2 : position_at (core2xy_stepper_alloc 'C' o2) m move_time = some r2)
    (hm1 : position_at (core2xy_stepper_alloc 'M' o1) m move_time = some s1)
    (hm2 : position_at (core2xy_stepper_alloc 'M' o2) m move_time = some s2) :
    r1 - r2 = o1 - o2 ∧ s1 - s2 = o1 - o2 := by
  rw [position_at_copy] at hc1 hc2
  rw [position_at_mirror] at hm1 hm2
  have e1 := Option.some.inj hc1
  have e2 := Option.some.inj hc2
  have e3 := Option.some.inj hm1
  have e4 := Option.some.inj hm2
  subst e1 e2 e3 e4
  constructor <;> ring

/-- Witness for C7: coordinate (2, 3), offsets 0 and 5; the copy
results are 5 and 10, the mirror results 1 and 6, both pairs differing
by 0 - 5. -/
theorem C7_offset_invariance_witness :
    (5 : ℚ) - 10 = 0 - 5 ∧ (1 : ℚ) - 6 = 0 - 5 :=
  C7_offset_invariance (fun _ => ⟨2, 3, 0⟩) 0 0 5 5 10 1 6
    (by rw [position_at_copy]; norm_num [move_get_coord])
    (by rw [position_at_copy]; norm_num [move_get_coord])
    (by rw [position_at_mirror]; norm_num [move_get_coord])
    (by rw [position_at_mirror]; norm_num [move_get_coord])

/-- Claim C8: position_at is deterministic and pure: if a call on an
instance returns a result and a post-call state, the state equals the
instance unchanged, and repeating the call with identical arguments
returns the identical result. -/
theorem C8_purity (dc : dual_carriage) (m : Move) (move_time r : ℚ)
    (dc2 : dual_carriage)
    (h : position_at_st dc m move_time = some (r, dc2)) :
    dc2 = dc ∧ position_at_st dc2 m move_time = some (r, dc2) := by
  rw [position_at_st_spec] at h
  cases hp : position_at dc m move_time with
  | none => rw [hp] at h; exact absurd h (by simp)
  | some r0 =>
      rw [hp] at h
      simp only [Option.map_some', Option.some.injEq, Prod.mk.injEq] at h
      obtain ⟨hr, hdc⟩ := h
      subst hr
      subst hdc
      exact ⟨rfl, by rw [position_at_st_spec, hp]; rfl⟩

/-- Witness for C8: a '+' instance queried at coordinate (4, 1) returns
5 and leaves the instance unchanged. -/
theorem C8_purity_witness :
    core2xy_stepper_alloc '+' 0 = core2xy_stepper_alloc '+' 0
    ∧ position_at_st (core2xy_stepper_alloc '+' 0) (fun _ => ⟨4, 1, 0⟩) 0
        = some (5, core2xy_stepper_alloc '+' 0) :=
  C8_purity (core2xy_stepper_alloc '+' 0) (fun _ => ⟨4, 1, 0⟩) 0 5
    (core2xy_stepper_alloc '+' 0)
    (by rw [position_at_st_spec, position_at_plus]
        norm_num [move_get_coord])

/-- Claim C9, counterexample: when malloc yields no storage the code
reaches undefined behavior (memset on the null pointer) instead of
reporting an AllocationFailure. -/
theorem C9_counterexample :
    core2xy_stepper_alloc_with_malloc none '+' 0 = AllocResult.undefinedBehavior
    ∧ core2xy_stepper_alloc_with_malloc none '+' 0 ≠ AllocResult.allocationFailure :=
  ⟨rfl, by decide⟩

/-- Claim C9 as amended: if storage cannot be obtained during
construction, no AllocationFailure error is raised: the code proceeds
to use the unobtained storage (memset through the null pointer),
which is undefined behavior, for every selector and offset. -/
theorem C9_malloc_failure_not_reported (type : Char) (offset : ℚ) :
    core2xy_stepper_alloc_with_malloc none type offset
      = AllocResult.undefinedBehavior :=
  rfl

/-- Claim C10: with p the '+' result and q the '-' result for the same
move and time, p + q recovers exactly 2x and p - q exactly 2y. -/
theorem C10_coordinate_recovery (m : Move) (move_time o1 o2 p q : ℚ)
    (hp : position_at (core2xy_stepper_alloc '+' o1) m move_time = some p)
    (hq : position_at (core2xy_stepper_alloc '-' o2) m move_time = some q) :
    p + q = 2 * (move_get_coord m move_time).x
    ∧ p - q = 2 * (move_get_coord m move_time).y := by
  rw [position_at_plus] at hp
  rw [position_at_minus] at hq
  have e1 := Option.some.inj hp
  have e2 := Option.some.inj hq
  subst e1 e2
  constructor <;> ring

/-- Witness for C10: at coordinate (4, 1) the '+' instance gives 5 and
the '-' instance gives 3; 5 + 3 = 2*4 and 5 - 3 = 2*1. -/
theorem C10_coordinate_recovery_witness :
    (5 : ℚ) + 3 = 2 * (move_get_coord (fun _ => ⟨4, 1, 0⟩) 0).x
    ∧ (5 : ℚ) - 3 = 2 * (move_get_coord (fun _ => ⟨4, 1, 0⟩) 0).y :=
  C10_coordinate_recovery (fun _ => ⟨4, 1, 0⟩) 0 0 0 5 3
    (by rw [position_at_plus]; norm_num [move_get_coord])
    (by rw [position_at_minus]; norm_num [move_get_coord])

end Core2XY
